import Mathlib

/-!
Shallow embedding of the display-switch configuration core
(`src/configuration.rs`), together with a spec-modelled account of the
input-source token parser (`src/input_source.rs`, which the source tree
does not include).

Rust strings are modelled as `List Char`; `str::to_lowercase` is modelled
per character with `Char.toLower`, and `str::contains` / `str::starts_with`
are modelled by the recursive functions `containsL` / `startsWithL` below.
`InputSource` is an opaque copyable numeric code, modelled as a one-field
structure over `Nat`.
-/

/-- Rust `str::to_lowercase`, modelled per character. -/
def lowerL (s : List Char) : List Char := s.map Char.toLower

/-- Rust `str::starts_with`: `startsWithL needle hay` holds when `hay`
begins with `needle`. -/
def startsWithL : List Char → List Char → Bool
  | [], _ => true
  | _ :: _, [] => false
  | a :: as, b :: bs => a == b && startsWithL as bs

/-- Rust `str::contains` (contiguous substring): `containsL hay needle`. -/
def containsL : List Char → List Char → Bool
  | [], needle => needle.isEmpty
  | h :: tl, needle => startsWithL needle (h :: tl) || containsL tl needle

/-- `InputSource`: an opaque numeric input-source code
(`pub struct InputSource`, with `value()` extraction). -/
structure InputSource where
  value : Nat
deriving DecidableEq, Repr

/-- `enum SwitchDirection { Connect, Disconnect }`. -/
inductive SwitchDirection where
  | Connect
  | Disconnect
deriving DecidableEq, Repr

/-- `struct InputSources`: a pair of optional sources, one per direction. -/
structure InputSources where
  on_usb_connect : Option InputSource
  on_usb_disconnect : Option InputSource
deriving DecidableEq, Repr

/-- `struct PerMonitorConfiguration`: a monitor-id fragment plus an
override slice. -/
structure PerMonitorConfiguration where
  monitor_id : List Char
  input_sources : InputSources
deriving DecidableEq, Repr

/-- `struct Configuration`: device id, global default slice and six
optional per-monitor slots. -/
structure Configuration where
  usb_device : List Char
  input_sources : InputSources
  monitor1 : Option PerMonitorConfiguration
  monitor2 : Option PerMonitorConfiguration
  monitor3 : Option PerMonitorConfiguration
  monitor4 : Option PerMonitorConfiguration
  monitor5 : Option PerMonitorConfiguration
  monitor6 : Option PerMonitorConfiguration
deriving DecidableEq, Repr

/-- `PerMonitorConfiguration::matches`: case-insensitive substring test of
the configured fragment against the queried monitor id. -/
def PerMonitorConfiguration.matches (c : PerMonitorConfiguration) (monitor_id : List Char) : Bool :=
  containsL (lowerL monitor_id) (lowerL c.monitor_id)

/-- `InputSources::merge`: per direction, `self`'s value if present,
otherwise the `default` slice's value (`Option::or`). -/
def InputSources.merge (self dflt : InputSources) : InputSources :=
  { on_usb_connect := self.on_usb_connect.or dflt.on_usb_connect
    on_usb_disconnect := self.on_usb_disconnect.or dflt.on_usb_disconnect }

/-- `InputSources::source`: select the field named by the direction. -/
def InputSources.source (s : InputSources) (direction : SwitchDirection) : Option InputSource :=
  match direction with
  | .Connect => s.on_usb_connect
  | .Disconnect => s.on_usb_disconnect

/-- `Configuration::deserialize_usb_device`: the loader stores the
lower-cased form of the raw `usb_device` string (`Ok(s.to_lowercase())`). -/
def Configuration.deserialize_usb_device (s : List Char) : List Char :=
  lowerL s

/-- The closure body inside `configuration_for_monitor`'s `find_map`:
`config.as_ref().and_then(|config| if config.matches(monitor_id) ...)`. -/
def slotHit (config : Option PerMonitorConfiguration) (monitor_id : List Char) :
    Option PerMonitorConfiguration :=
  config.bind fun config => if config.matches monitor_id then some config else none

/-- The `per_monitor_config` local of `Configuration::configuration_for_monitor`:
scan the six slots in declared order with `find_map`. -/
def Configuration.per_monitor_config (c : Configuration) (monitor_id : List Char) :
    Option PerMonitorConfiguration :=
  [c.monitor1, c.monitor2, c.monitor3, c.monitor4, c.monitor5, c.monitor6].findSome?
    (fun config => slotHit config monitor_id)

/-- `Configuration::configuration_for_monitor`: first matching slot merged
over the global defaults; pure global defaults when no slot matches
(`map_or`). -/
def Configuration.configuration_for_monitor (c : Configuration) (monitor_id : List Char) :
    InputSources :=
  match c.per_monitor_config monitor_id with
  | some config => config.input_sources.merge c.input_sources
  | none => c.input_sources

/-- Positional access to the six slots, in the declared scan order.
Indices outside 0..5 hold no slot. -/
def Configuration.slot (c : Configuration) (i : Nat) : Option PerMonitorConfiguration :=
  if i = 0 then c.monitor1
  else if i = 1 then c.monitor2
  else if i = 2 then c.monitor3
  else if i = 3 then c.monitor4
  else if i = 4 then c.monitor5
  else if i = 5 then c.monitor6
  else none

/-- Hex digit value, as in integer parsing with radix 16. -/
def hexDigitVal (c : Char) : Option Nat :=
  if '0' ≤ c ∧ c ≤ '9' then some (c.toNat - '0'.toNat)
  else if 'a' ≤ c ∧ c ≤ 'f' then some (c.toNat - 'a'.toNat + 10)
  else if 'A' ≤ c ∧ c ≤ 'F' then some (c.toNat - 'A'.toNat + 10)
  else none

/-- Decimal digit value. -/
def decDigitVal (c : Char) : Option Nat :=
  if '0' ≤ c ∧ c ≤ '9' then some (c.toNat - '0'.toNat) else none

/-- Accumulating digit fold for integer parsing. -/
def digitsValAux (digit : Char → Option Nat) (base : Nat) (acc : Nat) :
    List Char → Option Nat
  | [] => some acc
  | c :: cs =>
    match digit c with
    | some d => digitsValAux digit base (acc * base + d) cs
    | none => none

/-- Integer parse of a digit string: fails on the empty string or on any
non-digit character. -/
def digitsVal (digit : Char → Option Nat) (base : Nat) : List Char → Option Nat
  | [] => none
  | cs => digitsValAux digit base 0 cs

/-- Modelled from the spec: `src/input_source.rs` is absent from the source
tree; spec §4.1 says a token beginning with `0x` (case-insensitive) is
parsed as a hexadecimal integer. -/
def parseHexToken : List Char → Option Nat
  | '0' :: x :: rest => if x == 'x' || x == 'X' then digitsVal hexDigitVal 16 rest else none
  | _ => none

/-- Modelled from the spec: decimal integer parse of a token (§4.1). -/
def parseDecToken (t : List Char) : Option Nat :=
  digitsVal decDigitVal 10 t

/-- The parse error taxonomy entry `InvalidInputSource`, carrying the
offending token (spec §7). -/
inductive InputSourceError where
  | InvalidInputSource : List Char → InputSourceError
deriving DecidableEq, Repr

/-- Modelled from the spec: `src/input_source.rs` (the `InputSource` token
parser) is absent from the source tree. Spec §4.1: try the symbolic lookup
table first; if the token is not a recognized symbolic name, attempt the
hex-prefixed parse, then the decimal parse; if none succeed, fail with
`InvalidInputSource` carrying the offending token. The symbolic table is a
parameter, since its full contents are not given. -/
def InputSource.from_str (table : List Char → Option Nat) (token : List Char) :
    Except InputSourceError InputSource :=
  match table token with
  | some v => .ok ⟨v⟩
  | none =>
    match parseHexToken token with
    | some v => .ok ⟨v⟩
    | none =>
      match parseDecToken token with
      | some v => .ok ⟨v⟩
      | none => .error (.InvalidInputSource token)

/-- The symbolic names pinned down by the repository's own tests
(`test_symbolic_input_deserialization`). -/
def knownSymbolicTable (t : List Char) : Option Nat :=
  if t = "DisplayPort1".toList then some 0x0f
  else if t = "DisplayPort2".toList then some 0x10
  else none

/-- The global default slice of `test_per_monitor_config`:
connect `0x10`, disconnect `0x20`. -/
def exGlobal : InputSources := ⟨some ⟨0x10⟩, some ⟨0x20⟩⟩

/-- Slot 1 of `test_per_monitor_config`: fragment `"123"`, connect `0x11`,
disconnect unset. -/
def exM1 : PerMonitorConfiguration := ⟨"123".toList, ⟨some ⟨0x11⟩, none⟩⟩

/-- Slot 2 of `test_per_monitor_config`: fragment `"45"`, connect `0x12`,
disconnect `0x13`. -/
def exM2 : PerMonitorConfiguration := ⟨"45".toList, ⟨some ⟨0x12⟩, some ⟨0x13⟩⟩⟩

/-- The configuration of `test_per_monitor_config`. -/
def exCfg : Configuration :=
  ⟨"dead:beef".toList, exGlobal, some exM1, some exM2, none, none, none, none⟩

/-- A variant of `exCfg` whose second slot carries different overrides,
used to exhibit that later matching slots never influence the result. -/
def exCfgAlt : Configuration :=
  ⟨"dead:beef".toList, exGlobal, some exM1,
    some ⟨"45".toList, ⟨some ⟨0x99⟩, some ⟨0x98⟩⟩⟩, none, none, none, none⟩

/-- A configuration with no per-monitor slots and no disconnect default. -/
def exCfgNoDisc : Configuration :=
  ⟨"dead:beef".toList, ⟨some ⟨0x10⟩, none⟩, none, none, none, none, none, none⟩

/-- A slot with an empty identifier fragment. -/
def exMEmpty : PerMonitorConfiguration := ⟨[], ⟨some ⟨0x42⟩, none⟩⟩

/-- A configuration whose first populated slot has an empty fragment. -/
def exCfgEmptyFrag : Configuration :=
  ⟨"dead:beef".toList, exGlobal, some exMEmpty, some exM2, none, none, none, none⟩

/-! ### Helper lemmas -/

theorem startsWithL_iff : ∀ (needle hay : List Char),
    startsWithL needle hay = true ↔ ∃ r, hay = needle ++ r
  | [], hay => by simp [startsWithL]
  | _ :: _, [] => by simp [startsWithL]
  | a :: as, b :: bs => by
    simp only [startsWithL, Bool.and_eq_true, beq_iff_eq, startsWithL_iff as bs,
      List.cons_append, List.cons.injEq]
    constructor
    · rintro ⟨hab, r, hr⟩
      exact ⟨r, hab.symm, hr⟩
    · rintro ⟨r, hba, hr⟩
      exact ⟨hba.symm, r, hr⟩

theorem containsL_iff : ∀ (hay needle : List Char),
    containsL hay needle = true ↔ ∃ l r, hay = l ++ needle ++ r
  | [], needle => by
    simp only [containsL, List.isEmpty_iff]
    constructor
    · rintro rfl
      exact ⟨[], [], rfl⟩
    · rintro ⟨l, r, h⟩
      rcases List.append_eq_nil.mp h.symm with ⟨h1, h2⟩
      exact (List.append_eq_nil.mp h1).2
  | h :: tl, needle => by
    simp only [containsL, Bool.or_eq_true, startsWithL_iff, containsL_iff tl needle]
    constructor
    · rintro (⟨r, hr⟩ | ⟨l, r, hr⟩)
      · exact ⟨[], r, by simpa using hr⟩
      · exact ⟨h :: l, r, by simp [hr]⟩
    · rintro ⟨l, r, hr⟩
      cases l with
      | nil => exact Or.inl ⟨r, by simpa using hr⟩
      | cons a l =>
        rcases List.cons.injEq .. ▸ hr with ⟨-, h2⟩
        exact Or.inr ⟨l, r, by simpa using h2⟩

theorem containsL_nil_right (hay : List Char) : containsL hay [] = true := by
  cases hay <;> simp [containsL, startsWithL]

theorem merge_source (a b : InputSources) (d : SwitchDirection) :
    (a.merge b).source d = (a.source d).or (b.source d) := by
  cases d <;> rfl

theorem per_monitor_config_expand (c : Configuration) (m : List Char) :
    c.per_monitor_config m =
      ((slotHit c.monitor1 m).or ((slotHit c.monitor2 m).or ((slotHit c.monitor3 m).or
        ((slotHit c.monitor4 m).or ((slotHit c.monitor5 m).or (slotHit c.monitor6 m)))))) := by
  show ([c.monitor1, c.monitor2, c.monitor3, c.monitor4, c.monitor5, c.monitor6].findSome?
    (fun config => slotHit config m)) = _
  simp only [List.findSome?]
  cases slotHit c.monitor1 m <;> cases slotHit c.monitor2 m <;> cases slotHit c.monitor3 m <;>
    cases slotHit c.monitor4 m <;> cases slotHit c.monitor5 m <;> cases slotHit c.monitor6 m <;>
    rfl

theorem slotHit_none (m : List Char) : slotHit none m = none := rfl

theorem slotHit_some_of_matches (cfg : PerMonitorConfiguration) (m : List Char)
    (h : cfg.matches m = true) : slotHit (some cfg) m = some cfg := by
  simp [slotHit, h]

theorem slot_zero (c : Configuration) : c.slot 0 = c.monitor1 := rfl
theorem slot_one (c : Configuration) : c.slot 1 = c.monitor2 := rfl
theorem slot_two (c : Configuration) : c.slot 2 = c.monitor3 := rfl
theorem slot_three (c : Configuration) : c.slot 3 = c.monitor4 := rfl
theorem slot_four (c : Configuration) : c.slot 4 = c.monitor5 := rfl
theorem slot_five (c : Configuration) : c.slot 5 = c.monitor6 := rfl

theorem slot_ge_six (c : Configuration) (i : Nat) (h : 6 ≤ i) : c.slot i = none := by
  unfold Configuration.slot
  rw [if_neg (by omega), if_neg (by omega), if_neg (by omega), if_neg (by omega),
    if_neg (by omega), if_neg (by omega)]

/-- First-match characterisation: if slot `i` is populated and matches and
every earlier slot yields no hit, the scan returns slot `i`'s config. -/
theorem per_monitor_config_of_first (c : Configuration) (m : List Char) (i : Nat)
    (cfg : PerMonitorConfiguration) (hi : c.slot i = some cfg) (hm : cfg.matches m = true)
    (hprev : ∀ j, j < i → slotHit (c.slot j) m = none) :
    c.per_monitor_config m = some cfg := by
  have h6 : i < 6 := by
    by_contra h
    rw [slot_ge_six c i (by omega)] at hi
    exact Option.noConfusion hi
  rw [per_monitor_config_expand]
  interval_cases i
  · rw [slot_zero] at hi
    rw [hi, slotHit_some_of_matches cfg m hm]
    rfl
  · have h0 := hprev 0 (by omega); rw [slot_zero] at h0
    rw [slot_one] at hi
    rw [h0, hi, slotHit_some_of_matches cfg m hm]
    rfl
  · have h0 := hprev 0 (by omega); rw [slot_zero] at h0
    have h1 := hprev 1 (by omega); rw [slot_one] at h1
    rw [slot_two] at hi
    rw [h0, h1, hi, slotHit_some_of_matches cfg m hm]
    rfl
  · have h0 := hprev 0 (by omega); rw [slot_zero] at h0
    have h1 := hprev 1 (by omega); rw [slot_one] at h1
    have h2 := hprev 2 (by omega); rw [slot_two] at h2
    rw [slot_three] at hi
    rw [h0, h1, h2, hi, slotHit_some_of_matches cfg m hm]
    rfl
  · have h0 := hprev 0 (by omega); rw [slot_zero] at h0
    have h1 := hprev 1 (by omega); rw [slot_one] at h1
    have h2 := hprev 2 (by omega); rw [slot_two] at h2
    have h3 := hprev 3 (by omega); rw [slot_three] at h3
    rw [slot_four] at hi
    rw [h0, h1, h2, h3, hi, slotHit_some_of_matches cfg m hm]
    rfl
  · have h0 := hprev 0 (by omega); rw [slot_zero] at h0
    have h1 := hprev 1 (by omega); rw [slot_one] at h1
    have h2 := hprev 2 (by omega); rw [slot_two] at h2
    have h3 := hprev 3 (by omega); rw [slot_three] at h3
    have h4 := hprev 4 (by omega); rw [slot_four] at h4
    rw [slot_five] at hi
    rw [h0, h1, h2, h3, h4, hi, slotHit_some_of_matches cfg m hm]
    rfl

/-- No-match characterisation: if every slot yields no hit, the scan
returns nothing. -/
theorem per_monitor_config_of_none (c : Configuration) (m : List Char)
    (h : ∀ j, slotHit (c.slot j) m = none) :
    c.per_monitor_config m = none := by
  have h0 := h 0; rw [slot_zero] at h0
  have h1 := h 1; rw [slot_one] at h1
  have h2 := h 2; rw [slot_two] at h2
  have h3 := h 3; rw [slot_three] at h3
  have h4 := h 4; rw [slot_four] at h4
  have h5 := h 5; rw [slot_five] at h5
  rw [per_monitor_config_expand, h0, h1, h2, h3, h4, h5]
  rfl

/-! ### Claims -/

/-- Claim C1: when the queried identifier is matched by slot `i` (with no
earlier slot producing a hit), the result for each direction is slot `i`'s
value if present, otherwise the global default's, and any configuration
agreeing with `c` on the global defaults and on the slots up to `i` — its
later slots arbitrary — resolves identically, so a higher-numbered matching
slot's override never appears in the result. -/
theorem spec_C1 (c c' : Configuration) (m : List Char) (i : Nat)
    (cfg : PerMonitorConfiguration) (d : SwitchDirection)
    (hi : c.slot i = some cfg) (hm : cfg.matches m = true)
    (hprev : ∀ j, j < i → slotHit (c.slot j) m = none)
    (hg : c'.input_sources = c.input_sources)
    (hsl : ∀ j, j ≤ i → c'.slot j = c.slot j) :
    (c.configuration_for_monitor m).source d =
      (cfg.input_sources.source d).or (c.input_sources.source d) ∧
    c'.configuration_for_monitor m = c.configuration_for_monitor m := by
  have hpc : c.per_monitor_config m = some cfg :=
    per_monitor_config_of_first c m i cfg hi hm hprev
  have hpc' : c'.per_monitor_config m = some cfg :=
    per_monitor_config_of_first c' m i cfg (by rw [hsl i le_rfl]; exact hi) hm
      (fun j hj => by rw [hsl j (le_of_lt hj)]; exact hprev j hj)
  constructor
  · unfold Configuration.configuration_for_monitor
    rw [hpc]
    exact merge_source _ _ _
  · unfold Configuration.configuration_for_monitor
    rw [hpc, hpc']
    show cfg.input_sources.merge c'.input_sources = cfg.input_sources.merge c.input_sources
    rw [hg]

/-- Claim C1 witness: in the test configuration, `"12345"` matches both
slot 1 (`"123"`) and slot 2 (`"45"`); resolution takes slot 1's connect
and the global disconnect, and replacing slot 2's overrides changes
nothing. -/
theorem spec_C1_witness :
    (exCfg.configuration_for_monitor "12345".toList).source .Disconnect =
      (exM1.input_sources.source .Disconnect).or (exCfg.input_sources.source .Disconnect) ∧
    exCfgAlt.configuration_for_monitor "12345".toList =
      exCfg.configuration_for_monitor "12345".toList :=
  spec_C1 exCfg exCfgAlt ("12345".toList) 0 exM1 .Disconnect rfl (by decide)
    (fun j hj => absurd hj (Nat.not_lt_zero j)) rfl
    (fun j hj => by
      have hj0 : j = 0 := Nat.le_zero.mp hj
      subst hj0
      rfl)

/-- Claim C2: merge acts independently per direction — each direction of
the merged slice is the left slice's value when present, otherwise the
right slice's value for that same direction. -/
theorem spec_C2 (O D : InputSources) :
    (O.merge D).on_usb_connect =
      (match O.on_usb_connect with
       | some v => some v
       | none => D.on_usb_connect) ∧
    (O.merge D).on_usb_disconnect =
      (match O.on_usb_disconnect with
       | some v => some v
       | none => D.on_usb_disconnect) := by
  cases hc : O.on_usb_connect <;> cases hd : O.on_usb_disconnect <;>
    simp [InputSources.merge, Option.or, hc, hd]

/-- Claim C3: an identifier matching no populated slot resolves to exactly
the global default slice, for each direction alike. -/
theorem spec_C3 (c : Configuration) (m : List Char) (d : SwitchDirection)
    (h : ∀ i cfg, c.slot i = some cfg → cfg.matches m = false) :
    c.configuration_for_monitor m = c.input_sources ∧
    (c.configuration_for_monitor m).source d = c.input_sources.source d := by
  have hnone : ∀ j, slotHit (c.slot j) m = none := by
    intro j
    cases e : c.slot j with
    | none => rfl
    | some cfg => simp [slotHit, h j cfg e]
  have hpc := per_monitor_config_of_none c m hnone
  have hmain : c.configuration_for_monitor m = c.input_sources := by
    unfold Configuration.configuration_for_monitor
    rw [hpc]
  exact ⟨hmain, by rw [hmain]⟩

/-- Claim C3 witness: `"zzz"` matches neither `"123"` nor `"45"` in the
test configuration, so resolution returns the global defaults. -/
theorem spec_C3_witness :
    exCfg.configuration_for_monitor "zzz".toList = exCfg.input_sources ∧
    (exCfg.configuration_for_monitor "zzz".toList).source .Connect =
      exCfg.input_sources.source .Connect :=
  spec_C3 exCfg ("zzz".toList) .Connect
    (by
      intro i cfg hi
      by_cases h0 : i = 0
      · subst h0
        rw [slot_zero] at hi
        have h' : some exM1 = some cfg := hi
        injection h' with h'
        subst h'
        decide
      by_cases h1 : i = 1
      · subst h1
        rw [slot_one] at hi
        have h' : some exM2 = some cfg := hi
        injection h' with h'
        subst h'
        decide
      have hnone : exCfg.slot i = none := by
        unfold Configuration.slot
        rw [if_neg h0, if_neg h1]
        split_ifs <;> rfl
      rw [hnone] at hi
      exact Option.noConfusion hi)

/-- Claim C4: the matching predicate holds exactly when the lower-cased
fragment occurs as a contiguous substring of the lower-cased queried
identifier. -/
theorem spec_C4 (cfg : PerMonitorConfiguration) (m : List Char) :
    cfg.matches m = true ↔ ∃ l r, lowerL m = l ++ lowerL cfg.monitor_id ++ r := by
  unfold PerMonitorConfiguration.matches
  exact containsL_iff _ _

/-- Claim C5: the concrete scenario of `test_per_monitor_config` — `"333"`
gets the global pair, `"1234"` gets slot 1's connect with the global
disconnect, `"2345"` gets slot 2's pair. -/
theorem spec_C5 :
    (exCfg.configuration_for_monitor "333".toList).on_usb_connect = some ⟨0x10⟩ ∧
    (exCfg.configuration_for_monitor "333".toList).on_usb_disconnect = some ⟨0x20⟩ ∧
    (exCfg.configuration_for_monitor "1234".toList).on_usb_connect = some ⟨0x11⟩ ∧
    (exCfg.configuration_for_monitor "1234".toList).on_usb_disconnect = some ⟨0x20⟩ ∧
    (exCfg.configuration_for_monitor "2345".toList).on_usb_connect = some ⟨0x12⟩ ∧
    (exCfg.configuration_for_monitor "2345".toList).on_usb_disconnect = some ⟨0x13⟩ := by
  decide

/-- Claim C6: the loader stores the lower-cased form of the supplied
`usb_device` string; in particular `"DEAD:BEEF"` is stored as
`"dead:beef"`. -/
theorem spec_C6 :
    (∀ s, Configuration.deserialize_usb_device s = lowerL s) ∧
    Configuration.deserialize_usb_device "DEAD:BEEF".toList = "dead:beef".toList :=
  ⟨fun _ => rfl, by decide⟩

/-- Claim C7: input-source parsing tries the symbolic table first, then the
hex-prefixed parse, then the decimal parse, and when all fail it returns
`InvalidInputSource` carrying the offending token, never a default value. -/
theorem spec_C7 (table : List Char → Option Nat) (token : List Char) :
    (∀ v, table token = some v → InputSource.from_str table token = .ok ⟨v⟩) ∧
    (table token = none → ∀ v, parseHexToken token = some v →
      InputSource.from_str table token = .ok ⟨v⟩) ∧
    (table token = none → parseHexToken token = none → ∀ v, parseDecToken token = some v →
      InputSource.from_str table token = .ok ⟨v⟩) ∧
    (table token = none → parseHexToken token = none → parseDecToken token = none →
      InputSource.from_str table token = .error (.InvalidInputSource token)) := by
  refine ⟨?_, ?_, ?_, ?_⟩
  · intro v hv
    simp [InputSource.from_str, hv]
  · intro ht v hv
    simp [InputSource.from_str, ht, hv]
  · intro ht hh v hv
    simp [InputSource.from_str, ht, hh, hv]
  · intro ht hh hd
    simp [InputSource.from_str, ht, hh, hd]

/-- Claim C7 witness: `"not-a-source"` is no symbolic name, no hex token
and no decimal token, so parsing fails with `InvalidInputSource` carrying
that token. -/
theorem spec_C7_witness :
    InputSource.from_str knownSymbolicTable "not-a-source".toList =
      .error (.InvalidInputSource "not-a-source".toList) :=
  (spec_C7 knownSymbolicTable ("not-a-source".toList)).2.2.2 (by decide) (by decide) (by decide)

/-- Claim C8: resolution is total — it returns an optional source — and
when both the matched slot (if any) and the global default leave the
requested direction unset, it returns `none` rather than an error. -/
theorem spec_C8 (c : Configuration) (m : List Char) (d : SwitchDirection)
    (hslot : ∀ cfg, c.per_monitor_config m = some cfg → cfg.input_sources.source d = none)
    (hg : c.input_sources.source d = none) :
    (c.configuration_for_monitor m).source d = none := by
  cases hpc : c.per_monitor_config m with
  | none =>
    unfold Configuration.configuration_for_monitor
    rw [hpc]
    exact hg
  | some cfg =>
    have h1 := hslot cfg hpc
    unfold Configuration.configuration_for_monitor
    rw [hpc]
    show (cfg.input_sources.merge c.input_sources).source d = none
    rw [merge_source, h1, hg]
    rfl

/-- Claim C8 witness: with no slots and no global disconnect source, the
disconnect direction resolves to `none`. -/
theorem spec_C8_witness :
    (exCfgNoDisc.configuration_for_monitor "333".toList).source .Disconnect = none :=
  spec_C8 exCfgNoDisc ("333".toList) .Disconnect
    (fun _cfg h =>
      Option.noConfusion
        (h.symm.trans (rfl : exCfgNoDisc.per_monitor_config ("333".toList) = none)))
    rfl

/-- Claim C9: merge is associative, but not commutative — the left operand
takes priority per direction, so swapping operands can change the result. -/
theorem spec_C9 :
    (∀ A B C : InputSources, A.merge (B.merge C) = (A.merge B).merge C) ∧
    ∃ A B : InputSources, A.merge B ≠ B.merge A := by
  constructor
  · intro A B C
    rcases A with ⟨ac, ad⟩
    rcases B with ⟨bc, bd⟩
    rcases C with ⟨cc, cd⟩
    cases ac <;> cases ad <;> cases bc <;> cases bd <;> cases cc <;> cases cd <;> rfl
  · exact ⟨⟨some ⟨1⟩, none⟩, ⟨some ⟨2⟩, none⟩, by decide⟩

/-- Claim C10: a populated slot with an empty fragment matches every
queried identifier, and when it is the lowest-numbered populated slot it
decides every resolution, shadowing all later slots. -/
theorem spec_C10 (c : Configuration) (m : List Char) (i : Nat)
    (cfg : PerMonitorConfiguration)
    (hi : c.slot i = some cfg) (hempty : cfg.monitor_id = [])
    (hprev : ∀ j, j < i → c.slot j = none) :
    cfg.matches m = true ∧
    c.configuration_for_monitor m = cfg.input_sources.merge c.input_sources := by
  have hm : cfg.matches m = true := by
    unfold PerMonitorConfiguration.matches
    rw [hempty]
    show containsL (lowerL m) [] = true
    exact containsL_nil_right _
  have hpc := per_monitor_config_of_first c m i cfg hi hm
    (fun j hj => by rw [hprev j hj]; rfl)
  refine ⟨hm, ?_⟩
  unfold Configuration.configuration_for_monitor
  rw [hpc]

/-- Claim C10 witness: an empty-fragment first slot matches `"anything"`
and decides the result, shadowing slot 2. -/
theorem spec_C10_witness :
    exMEmpty.matches "anything".toList = true ∧
    exCfgEmptyFrag.configuration_for_monitor "anything".toList =
      exMEmpty.input_sources.merge exCfgEmptyFrag.input_sources :=
  spec_C10 exCfgEmptyFrag ("anything".toList) 0 exMEmpty rfl rfl
    (fun j hj => absurd hj (Nat.not_lt_zero j))
